import Mathlib

/-!
Shallow embedding of the transaction engine of `simple_automation`
(`simple_automation/transaction.py`): `CompletedTransaction`,
`Transaction` and `ActiveTransaction`, together with the report-line
renderer inside `ActiveTransaction.finalize`.

Python values that occur in transaction state dicts are modelled by
`Prim`; attribute values of a `CompletedTransaction` (which may be state
dicts or primitives) by `Value`.  A Python object with dynamic
attributes is modelled as an association list `Obj` with `setattr` /
`getattr`.  Exceptions are modelled by the `PyError` sum; methods that
can raise return `Except PyError _`, and an error outcome produces no
successor state, matching the fact that every `raise` in the source
happens before any mutation.
-/

namespace SimpleAutomation

/-- Python primitive values as they occur in transaction state dicts:
`None`, booleans, integers and strings. -/
inductive Prim where
  | pNone : Prim
  | pBool : Bool → Prim
  | pInt : Int → Prim
  | pStr : String → Prim
deriving DecidableEq

/-- A Python dict built from `**kwargs`, preserving insertion order.
Keyword arguments guarantee distinct keys; theorems that need this
assume `Nodup` on the key list. -/
abbrev StateDict := List (String × Prim)

/-- An attribute value of a `CompletedTransaction`: either a primitive
(including `None`) or a state dict. -/
inductive Value where
  | prim : Prim → Value
  | dict : StateDict → Value
deriving DecidableEq

/-- Python `==` on primitives (including Python's `bool`/`int`
cross-type equality, `True == 1`). -/
def primEq : Prim → Prim → Bool
  | .pNone, .pNone => true
  | .pBool a, .pBool b => a == b
  | .pBool a, .pInt n => (if a then (1 : Int) else 0) == n
  | .pInt n, .pBool b => n == (if b then (1 : Int) else 0)
  | .pInt a, .pInt b => a == b
  | .pStr a, .pStr b => a == b
  | _, _ => false

/-- Dict lookup, `d[k]` (first binding wins; unique for kwargs dicts). -/
def lookup : StateDict → String → Option Prim
  | [], _ => none
  | (k, v) :: rest, a => if k == a then some v else lookup rest a

/-- Python `k in d`. -/
def containsKey (d : StateDict) (k : String) : Bool :=
  (lookup d k).isSome

/-- Python `==` on dicts: equal key sets with `primEq`-equal values
(for dicts with distinct keys this is exactly CPython's dict equality). -/
def dictEq (a b : StateDict) : Bool :=
  (a.all fun kv =>
    match lookup b kv.1 with
    | some w => primEq kv.2 w
    | none => false) &&
  (b.all fun kv =>
    match lookup a kv.1 with
    | some w => primEq kv.2 w
    | none => false)

/-- Python `==` on attribute values: `None`/primitive vs. dict compare
unequal, dicts compare by `dictEq`. -/
def pyEqV : Value → Value → Bool
  | .prim a, .prim b => primEq a b
  | .dict a, .dict b => dictEq a b
  | _, _ => false

/-- Python truthiness of an attribute value (`if self.result.success:`). -/
def pyTruthy : Value → Bool
  | .prim .pNone => false
  | .prim (.pBool b) => b
  | .prim (.pInt n) => n != 0
  | .prim (.pStr s) => s != ""
  | .dict d => !d.isEmpty

/-- Python `str()` on a primitive. -/
def pyStr : Prim → String
  | .pNone => "None"
  | .pBool true => "True"
  | .pBool false => "False"
  | .pInt n => toString n
  | .pStr s => s

/-- `set(a.keys()) == set(b.keys())`: the key-set comparison performed
by `ActiveTransaction.finalize`. -/
def keySetEq (a b : StateDict) : Bool :=
  (a.all fun kv => containsKey b kv.1) && (b.all fun kv => containsKey a kv.1)

/-- A Python object with dynamic attributes (a `CompletedTransaction`):
an association list of attribute names to values. -/
abbrev Obj := List (String × Value)

/-- `setattr(o, a, v)`: replace the binding of `a` in place, or append. -/
def setattr : Obj → String → Value → Obj
  | [], a, v => [(a, v)]
  | (k, w) :: rest, a, v =>
    if k == a then (a, v) :: rest else (k, w) :: setattr rest a v

/-- Attribute access `o.a`; `none` models Python's `AttributeError`. -/
def getattr : Obj → String → Option Value
  | [], _ => none
  | (k, w) :: rest, a => if k == a then some w else getattr rest a

/-- Modelled from the spec: `simple_automation/exceptions.py` is not
under `src/`.  Per the spec's error taxonomy there are two disjoint
repository error kinds: `LogicError` ("logic/invariant violation",
carrying a message) and `TransactionError` ("operational failure",
carrying the `CompletedTransaction`).  `typeError`, `attributeError`
and `keyError` model the Python builtins raised by the interpreter
itself. -/
inductive PyError where
  | logicError : String → PyError
  | transactionError : Obj → PyError
  | typeError : String → PyError
  | attributeError : String → PyError
  | keyError : String → PyError
deriving DecidableEq

/-- The host context.  `ActiveTransaction.finalize` receives it but
never consults it, and `simple_automation/context.py` is outside the
modelled core, so it is opaque. -/
abbrev Context := Unit

/-- The mutable per-scope state of `ActiveTransaction`: the two
recorded snapshots and the result object, each `None` until set. -/
structure ActiveTransaction where
  initial_state_dict : Option StateDict
  final_state_dict : Option StateDict
  result : Option Obj
deriving DecidableEq

/-- `Transaction`: context, report name, and the `ActiveTransaction`
created on `__enter__` (initially `None`). -/
structure Transaction where
  context : Context
  name : String
  transaction_context : Option ActiveTransaction

/-- The state dicts stored on an `ActiveTransaction`, as attribute
values: Python `None` when never recorded, the dict otherwise. -/
def optStateToValue : Option StateDict → Value
  | none => .prim .pNone
  | some d => .dict d

/-- `CompletedTransaction.__init__(transaction, success, store,
failure_reason)`: sets the derived attributes, computing `changed` as
`self.initial_state != self.final_state`, and then iterates `store`
with `setattr` — so a store entry named like a derived attribute
overrides it. -/
def CompletedTransaction.make (transaction : ActiveTransaction) (success : Value)
    (store : List (String × Value)) (failure_reason : Value) : Obj :=
  let initialState := optStateToValue transaction.initial_state_dict
  let finalState := optStateToValue transaction.final_state_dict
  let base : Obj :=
    [("success", success),
     ("failure_reason", failure_reason),
     ("initial_state", initialState),
     ("final_state", finalState),
     ("changed", .prim (.pBool (!(pyEqV initialState finalState))))]
  store.foldl (fun o kv => setattr o kv.1 kv.2) base

/-- `ActiveTransaction.__init__`: all three fields `None`. -/
def ActiveTransaction.init : ActiveTransaction :=
  ⟨none, none, none⟩

/-- `ActiveTransaction.initial_state(**kwargs)`. -/
def ActiveTransaction.initial_state (self : ActiveTransaction) (kwargs : StateDict) :
    Except PyError ActiveTransaction :=
  if self.result.isSome then
    .error (.logicError "A transaction cannot be altered after it is completed")
  else
    .ok { self with initial_state_dict := some kwargs }

/-- `ActiveTransaction.final_state(**kwargs)`. -/
def ActiveTransaction.final_state (self : ActiveTransaction) (kwargs : StateDict) :
    Except PyError ActiveTransaction :=
  if self.result.isSome then
    .error (.logicError "A transaction cannot be altered after it is completed")
  else
    .ok { self with final_state_dict := some kwargs }

/-- `ActiveTransaction.success(**kwargs)`: guard, then build the
`CompletedTransaction` with `success=True` and store it as `result`.
Returns the new state together with the returned result object. -/
def ActiveTransaction.success (self : ActiveTransaction)
    (kwargs : List (String × Value)) : Except PyError (ActiveTransaction × Obj) :=
  if self.result.isSome then
    .error (.logicError "A transaction cannot be completed multiple times.")
  else
    let r := CompletedTransaction.make self (.prim (.pBool true)) kwargs (.prim .pNone)
    .ok ({ self with result := some r }, r)

/-- `ActiveTransaction.failure(reason, **kwargs)`. -/
def ActiveTransaction.failure (self : ActiveTransaction) (reason : Value)
    (kwargs : List (String × Value)) : Except PyError (ActiveTransaction × Obj) :=
  if self.result.isSome then
    .error (.logicError "A transaction cannot be completed multiple times.")
  else
    let r := CompletedTransaction.make self (.prim (.pBool false)) kwargs reason
    .ok ({ self with result := some r }, r)

/-- `ActiveTransaction.unchanged(**kwargs)`:
`self.final_state(**self.initial_state_dict); return self.success()`.
Unpacking `**None` raises `TypeError` before the call; note that the
accepted `kwargs` are NOT forwarded — the source calls `self.success()`
with no arguments. -/
def ActiveTransaction.unchanged (self : ActiveTransaction)
    (kwargs : List (String × Value)) : Except PyError (ActiveTransaction × Obj) :=
  match self.initial_state_dict with
  | none => .error (.typeError "argument after ** must be a mapping, not NoneType")
  | some d =>
    match self.final_state d with
    | .error e => .error e
    | .ok t => t.success []

/-- `Transaction.__enter__`: guard against re-entry, then create and
return a fresh `ActiveTransaction`. -/
def Transaction.enter (self : Transaction) :
    Except PyError (Transaction × ActiveTransaction) :=
  if self.transaction_context.isSome then
    .error (.logicError "A transaction may only be started once.")
  else
    .ok ({ self with transaction_context := some ActiveTransaction.init },
         ActiveTransaction.init)

/-- ANSI status marker for a successful, changed transaction. -/
def statusChanged : String := "\x1b[32m+\x1b[m"

/-- ANSI status marker for a successful, unchanged transaction. -/
def statusUnchanged : String := "\x1b[34m·\x1b[m"

/-- ANSI status marker for a failed transaction. -/
def statusFailed : String := "\x1b[1;31m!\x1b[m"

/-- `if len(s) > 16: s = s[:16] + "…"` — display truncation. -/
def truncateDisplay (s : String) : String :=
  if s.length > 16 then s.take 16 ++ "…" else s

/-- One `k: value` cell of the report line: the `(unchanged)` form when
the full values compare equal, the `before → after` form otherwise;
both display the truncated string forms. -/
def renderPair (k : String) (initialV finalV : Prim) : String :=
  let strInitialV := truncateDisplay (pyStr initialV)
  let strFinalV := truncateDisplay (pyStr finalV)
  if primEq initialV finalV then
    "  \x1b[37m" ++ k ++ ": " ++ strInitialV ++ " (unchanged)\x1b[m"
  else
    "  \x1b[33m" ++ k ++ ": " ++ strInitialV ++ " → " ++ strFinalV ++ "\x1b[m"

/-- The loop `for k, final_v in final_state.items(): initial_v =
initial_state[k]; ...` of `finalize`; a missing key models Python's
`KeyError` (unreachable after the key-set check). -/
def renderPairs (initial : StateDict) : List (String × Prim) → Except PyError String
  | [] => .ok ""
  | (k, finalV) :: rest =>
    match lookup initial k with
    | none => .error (.keyError k)
    | some initialV =>
      match renderPairs initial rest with
      | .error e => .error e
      | .ok s => .ok (renderPair k initialV finalV ++ s)

/-- `ActiveTransaction.finalize(context, transaction)`: the four
`LogicError` guards, then the report line (returned as the first
component — the list of printed lines), then `TransactionError` on a
falsy `success` attribute.  Attribute reads on the result object follow
source order; a read of a missing attribute or a `keys()` call on a
non-dict models the corresponding Python `AttributeError`. -/
def ActiveTransaction.finalize (self : ActiveTransaction) (_context : Context)
    (transaction : Transaction) : List String × Except PyError Unit :=
  match self.result with
  | none =>
    ([], .error (.logicError "A transaction cannot be completed without a result status."))
  | some r =>
    match getattr r "initial_state" with
    | none => ([], .error (.attributeError "initial_state"))
    | some vi =>
      if vi = Value.prim .pNone then
        ([], .error (.logicError "A transaction cannot be completed without an initial state."))
      else
        match getattr r "final_state" with
        | none => ([], .error (.attributeError "final_state"))
        | some vf =>
          if vf = Value.prim .pNone then
            ([], .error (.logicError "A transaction cannot be completed without a final state."))
          else
            match vi with
            | .prim _ => ([], .error (.attributeError "keys"))
            | .dict di =>
              match vf with
              | .prim _ => ([], .error (.attributeError "keys"))
              | .dict df =>
                if !(keySetEq di df) then
                  ([], .error (.logicError "Both initial and final transaction state must have the same keys."))
                else
                  match getattr r "success" with
                  | none => ([], .error (.attributeError "success"))
                  | some sv =>
                    let statusOrErr : Except PyError String :=
                      if pyTruthy sv then
                        match getattr r "changed" with
                        | none => .error (.attributeError "changed")
                        | some cv =>
                          .ok (if pyTruthy cv then statusChanged else statusUnchanged)
                      else
                        .ok statusFailed
                    match statusOrErr with
                    | .error e => ([], .error e)
                    | .ok statusChar =>
                      match renderPairs di df with
                      | .error e => ([], .error e)
                      | .ok pairsStr =>
                        let line := "[" ++ statusChar ++ "] " ++ transaction.name ++ pairsStr
                        if pyTruthy sv then
                          ([line], .ok ())
                        else
                          ([line], .error (.transactionError r))

/-- `Transaction.__exit__`: delegates to `finalize`; calling it on a
never-entered `Transaction` models the `AttributeError` of
`None.finalize`. -/
def Transaction.exit (self : Transaction) : List String × Except PyError Unit :=
  match self.transaction_context with
  | none => ([], .error (.attributeError "finalize"))
  | some a => a.finalize self.context self

/-- The state dict used in the concrete `unchanged` evaluation. -/
def c8d : StateDict := [("a", .pInt 1)]

/-- The result object produced by `unchanged(foo=1)` after
`initial_state(a=1)`: built by `success()` with an empty store. -/
def c8r : Obj :=
  CompletedTransaction.make ⟨some c8d, some c8d, none⟩ (.prim (.pBool true)) [] (.prim .pNone)

/-- State dict for the `changed`-override counterexample. -/
def c2d : StateDict := [("a", .pInt 1)]

/-- An `ActiveTransaction` with identical recorded snapshots. -/
def c2t : ActiveTransaction := ⟨some c2d, some c2d, none⟩

/-- The result of `success(changed=True)` on `c2t`: the store entry
overrides the derived `changed` attribute. -/
def c2r : Obj :=
  CompletedTransaction.make c2t (.prim (.pBool true))
    [("changed", .prim (.pBool true))] (.prim .pNone)

/-- Store that overrides both state attributes at completion time. -/
def c1xStore : List (String × Value) :=
  [("initial_state", .dict [("a", .pInt 1)]), ("final_state", .dict [("a", .pInt 1)])]

/-- The result of `success(initial_state={"a": 1}, final_state={"a": 1})`
on a fresh `ActiveTransaction` that never recorded any state. -/
def c1xr : Obj :=
  CompletedTransaction.make ActiveTransaction.init (.prim (.pBool true)) c1xStore (.prim .pNone)

/-- Concrete states for the C1 witness: mismatched key sets. -/
def c1da : StateDict := [("a", .pInt 1)]

/-- Concrete states for the C1 witness: mismatched key sets. -/
def c1db : StateDict := [("b", .pInt 2)]

/-- The result object built by `failure("why")` on the C1 witness. -/
def c1wr : Obj :=
  CompletedTransaction.make ⟨some c1da, some c1db, none⟩ (.prim (.pBool false)) []
    (.prim (.pStr "why"))

/-- The result object of a failed transaction with matching key sets,
built by `failure("denied")`, used to witness C4. -/
def c4r : Obj :=
  CompletedTransaction.make ⟨some [("x", .pStr "a")], some [("x", .pStr "b")], none⟩
    (.prim (.pBool false)) [] (.prim (.pStr "denied"))

section Helpers

/-- `getattr` after `setattr` at the same attribute yields the new value. -/
theorem getattr_setattr_self (o : Obj) (a : String) (v : Value) :
    getattr (setattr o a v) a = some v := by
  induction o with
  | nil => simp [setattr, getattr]
  | cons kv rest ih =>
    obtain ⟨k, w⟩ := kv
    by_cases h : k = a
    · simp [setattr, getattr, h]
    · simp [setattr, getattr, h, ih]

/-- `getattr` at a different attribute is unaffected by `setattr`. -/
theorem getattr_setattr_of_ne (o : Obj) (a b : String) (v : Value) (hab : a ≠ b) :
    getattr (setattr o a v) b = getattr o b := by
  induction o with
  | nil => simp [setattr, getattr, hab]
  | cons kv rest ih =>
    obtain ⟨k, w⟩ := kv
    by_cases h : k = a
    · simp [setattr, getattr, h, hab]
    · simp [setattr, getattr, h, ih]

/-- Folding a store whose keys avoid `a` leaves attribute `a` alone. -/
theorem getattr_storeFold_of_notmem (ks : List (String × Value)) (o : Obj) (a : String)
    (h : ∀ kv ∈ ks, kv.1 ≠ a) :
    getattr (ks.foldl (fun o kv => setattr o kv.1 kv.2) o) a = getattr o a := by
  induction ks generalizing o with
  | nil => rfl
  | cons kv rest ih =>
    simp only [List.foldl_cons]
    rw [ih _ fun x hx => h x (List.mem_cons_of_mem _ hx)]
    exact getattr_setattr_of_ne o kv.1 a kv.2 (h kv (List.mem_cons_self _ _))

/-- The `success` attribute of a `CompletedTransaction` whose store does
not override it. -/
theorem make_getattr_success (t : ActiveTransaction) (s fr : Value)
    (ks : List (String × Value)) (hks : ∀ kv ∈ ks, kv.1 ≠ "success") :
    getattr (CompletedTransaction.make t s ks fr) "success" = some s := by
  simp only [CompletedTransaction.make]
  rw [getattr_storeFold_of_notmem ks _ _ hks]
  rfl

/-- The `initial_state` attribute of a `CompletedTransaction` whose
store does not override it: the snapshot recorded before completion. -/
theorem make_getattr_initial_state (t : ActiveTransaction) (s fr : Value)
    (ks : List (String × Value)) (hks : ∀ kv ∈ ks, kv.1 ≠ "initial_state") :
    getattr (CompletedTransaction.make t s ks fr) "initial_state" =
      some (optStateToValue t.initial_state_dict) := by
  simp only [CompletedTransaction.make]
  rw [getattr_storeFold_of_notmem ks _ _ hks]
  rfl

/-- The `final_state` attribute of a `CompletedTransaction` whose store
does not override it. -/
theorem make_getattr_final_state (t : ActiveTransaction) (s fr : Value)
    (ks : List (String × Value)) (hks : ∀ kv ∈ ks, kv.1 ≠ "final_state") :
    getattr (CompletedTransaction.make t s ks fr) "final_state" =
      some (optStateToValue t.final_state_dict) := by
  simp only [CompletedTransaction.make]
  rw [getattr_storeFold_of_notmem ks _ _ hks]
  rfl

/-- The `changed` attribute of a `CompletedTransaction` whose store does
not override it: the Python `!=` of the two recorded snapshots. -/
theorem make_getattr_changed (t : ActiveTransaction) (s fr : Value)
    (ks : List (String × Value)) (hks : ∀ kv ∈ ks, kv.1 ≠ "changed") :
    getattr (CompletedTransaction.make t s ks fr) "changed" =
      some (.prim (.pBool (!(pyEqV (optStateToValue t.initial_state_dict)
        (optStateToValue t.final_state_dict))))) := by
  simp only [CompletedTransaction.make]
  rw [getattr_storeFold_of_notmem ks _ _ hks]
  rfl

/-- `primEq` is reflexive. -/
theorem primEq_refl (p : Prim) : primEq p p = true := by
  cases p <;> simp [primEq]

/-- In a dict with distinct keys, `lookup` finds each binding. -/
theorem lookup_eq_of_mem_nodup {d : StateDict} {k : String} {v : Prim}
    (hmem : (k, v) ∈ d) (hnd : (d.map Prod.fst).Nodup) : lookup d k = some v := by
  induction d with
  | nil => cases hmem
  | cons kv rest ih =>
    obtain ⟨k0, v0⟩ := kv
    simp only [List.map_cons, List.nodup_cons] at hnd
    rcases List.mem_cons.mp hmem with heq | hmem'
    · obtain ⟨h1, h2⟩ := Prod.mk.injEq .. ▸ heq
      subst h1; subst h2
      simp [lookup]
    · have hk : k0 ≠ k := by
        intro h
        subst h
        exact hnd.1 (List.mem_map.mpr ⟨(k0, v), hmem', rfl⟩)
      simp [lookup, hk, ih hmem' hnd.2]

/-- Python dict equality is reflexive (on dicts with distinct keys). -/
theorem dictEq_refl {d : StateDict} (hnd : (d.map Prod.fst).Nodup) :
    dictEq d d = true := by
  simp only [dictEq, Bool.and_eq_true, List.all_eq_true]
  constructor <;>
  · intro kv hkv
    rw [lookup_eq_of_mem_nodup (by simpa using hkv) hnd]
    exact primEq_refl kv.2

/-- Appending the empty string on the right is the identity. -/
theorem string_append_empty (s : String) : s ++ "" = s := by
  cases s
  simp [String.instAppend, String.append]

/-- A passed key-set check means every final key occurs initially. -/
theorem keySetEq_right_sub {di df : StateDict} (h : keySetEq di df = true) :
    ∀ kv ∈ df, containsKey di kv.1 = true := by
  simp only [keySetEq, Bool.and_eq_true, List.all_eq_true] at h
  exact h.2

/-- If every final key occurs among the initial keys, the report-line
loop of `finalize` runs without a `KeyError`. -/
theorem renderPairs_isOk (di : StateDict) (df : List (String × Prim))
    (h : ∀ kv ∈ df, containsKey di kv.1 = true) :
    ∃ s, renderPairs di df = .ok s := by
  induction df with
  | nil => exact ⟨"", rfl⟩
  | cons kv rest ih =>
    obtain ⟨k, fv⟩ := kv
    have hk : containsKey di k = true := h (k, fv) (List.mem_cons_self _ _)
    obtain ⟨s, hs⟩ := ih fun x hx => h x (List.mem_cons_of_mem _ hx)
    cases hl : lookup di k with
    | none => rw [containsKey, hl] at hk; cases hk
    | some iv => exact ⟨renderPair k iv fv ++ s, by simp [renderPairs, hl, hs]⟩

/-- The three state-shape guards of `finalize` on a result object built
by `CompletedTransaction.make` from the transaction's own snapshots
(store not overriding the state attributes). -/
theorem finalize_make_guards (i f : Option StateDict) (sv fr : Value)
    (ks : List (String × Value)) (c : Context) (tr : Transaction)
    (hks : ∀ kv ∈ ks, kv.1 ≠ "initial_state" ∧ kv.1 ≠ "final_state") :
    (i = none →
      ActiveTransaction.finalize
          ⟨i, f, some (CompletedTransaction.make ⟨i, f, none⟩ sv ks fr)⟩ c tr =
        ([], .error (.logicError "A transaction cannot be completed without an initial state."))) ∧
    (∀ di, i = some di → f = none →
      ActiveTransaction.finalize
          ⟨i, f, some (CompletedTransaction.make ⟨i, f, none⟩ sv ks fr)⟩ c tr =
        ([], .error (.logicError "A transaction cannot be completed without a final state."))) ∧
    (∀ di df, i = some di → f = some df → keySetEq di df = false →
      ActiveTransaction.finalize
          ⟨i, f, some (CompletedTransaction.make ⟨i, f, none⟩ sv ks fr)⟩ c tr =
        ([], .error (.logicError "Both initial and final transaction state must have the same keys."))) := by
  refine ⟨?_, ?_, ?_⟩
  · intro hi
    subst hi
    have hg := make_getattr_initial_state ⟨none, f, none⟩ sv fr ks
      fun kv hkv => (hks kv hkv).1
    simp [ActiveTransaction.finalize, hg, optStateToValue]
  · intro di hi hf
    subst hi; subst hf
    have hg1 := make_getattr_initial_state ⟨some di, none, none⟩ sv fr ks
      fun kv hkv => (hks kv hkv).1
    have hg2 := make_getattr_final_state ⟨some di, none, none⟩ sv fr ks
      fun kv hkv => (hks kv hkv).2
    simp [ActiveTransaction.finalize, hg1, hg2, optStateToValue]
  · intro di df hi hf hkeys
    subst hi; subst hf
    have hg1 := make_getattr_initial_state ⟨some di, some df, none⟩ sv fr ks
      fun kv hkv => (hks kv hkv).1
    have hg2 := make_getattr_final_state ⟨some di, some df, none⟩ sv fr ks
      fun kv hkv => (hks kv hkv).2
    simp [ActiveTransaction.finalize, hg1, hg2, optStateToValue, hkeys]

end Helpers

/-- C1 counterexample: on a fresh `ActiveTransaction` that never
recorded any state, `success(initial_state={"a": 1},
final_state={"a": 1})` overrides the result's state attributes, and
`finalize` then returns normally — no `LogicError` is raised even
though `initial_state` (and `final_state`) was never set. -/
theorem finalize_missing_initial_bypassed_cex :
    ActiveTransaction.init.initial_state_dict = none ∧
    ActiveTransaction.init.final_state_dict = none ∧
    ActiveTransaction.init.success c1xStore = .ok (⟨none, none, some c1xr⟩, c1xr) ∧
    (ActiveTransaction.finalize ⟨none, none, some c1xr⟩ () ⟨(), "t", none⟩).2 = .ok () :=
  ⟨rfl, rfl, rfl, rfl⟩

/-- C1 (amended): `finalize` raises a `LogicError` when no result was
ever set; and — provided the completion's extra keyword values do not
override the result's `initial_state` or `final_state` attributes —
also when `initial_state` was never set, when `final_state` was never
set, or when the key sets of the two recorded states differ; the
key-set mismatch raises regardless of whether completion was by
`success` or `failure`. -/
theorem finalize_guard_logic_errors (i f : Option StateDict) (ok : Bool) (reason : Value)
    (ks : List (String × Value)) (c : Context) (tr : Transaction)
    (hks : ∀ kv ∈ ks, kv.1 ≠ "initial_state" ∧ kv.1 ≠ "final_state") :
    ActiveTransaction.finalize ⟨i, f, none⟩ c tr =
      ([], .error (.logicError "A transaction cannot be completed without a result status.")) ∧
    ∀ t1 r,
      (if ok then ActiveTransaction.success ⟨i, f, none⟩ ks
       else ActiveTransaction.failure ⟨i, f, none⟩ reason ks) = .ok (t1, r) →
      (i = none →
        t1.finalize c tr =
          ([], .error (.logicError "A transaction cannot be completed without an initial state."))) ∧
      (∀ di, i = some di → f = none →
        t1.finalize c tr =
          ([], .error (.logicError "A transaction cannot be completed without a final state."))) ∧
      (∀ di df, i = some di → f = some df → keySetEq di df = false →
        t1.finalize c tr =
          ([], .error (.logicError "Both initial and final transaction state must have the same keys."))) := by
  constructor
  · rfl
  · intro t1 r h
    cases ok
    case false =>
      simp only [Bool.false_eq_true, if_false, ActiveTransaction.failure,
        Option.isSome_none, Bool.false_eq_true, if_false, Except.ok.injEq,
        Prod.mk.injEq] at h
      obtain ⟨h1, h2⟩ := h
      subst h1; subst h2
      exact finalize_make_guards i f (.prim (.pBool false)) reason ks c tr hks
    case true =>
      simp only [if_true, ActiveTransaction.success, Option.isSome_none,
        Bool.false_eq_true, if_false, Except.ok.injEq, Prod.mk.injEq] at h
      obtain ⟨h1, h2⟩ := h
      subst h1; subst h2
      exact finalize_make_guards i f (.prim (.pBool true)) (.prim .pNone) ks c tr hks

/-- Witness for the amended C1: the no-result guard on a fresh
transaction, and the key-set guard after `failure` on mismatched
snapshots. -/
theorem finalize_guard_logic_errors_witness :
    ActiveTransaction.finalize ⟨none, none, none⟩ () ⟨(), "t", none⟩ =
      ([], .error (.logicError "A transaction cannot be completed without a result status.")) ∧
    ActiveTransaction.finalize ⟨some c1da, some c1db, some c1wr⟩ () ⟨(), "t", none⟩ =
      ([], .error (.logicError "Both initial and final transaction state must have the same keys.")) := by
  constructor
  · exact (finalize_guard_logic_errors none none true (.prim .pNone) [] ()
      ⟨(), "t", none⟩ (by simp)).1
  · exact ((finalize_guard_logic_errors (some c1da) (some c1db) false
      (.prim (.pStr "why")) [] () ⟨(), "t", none⟩ (by simp)).2
      ⟨some c1da, some c1db, some c1wr⟩ c1wr rfl).2.2 c1da c1db rfl rfl (by decide)

/-- C3: once `result` is set on an `ActiveTransaction`, each of
`initial_state`, `final_state`, `success` and `failure` raises a
`LogicError` regardless of its arguments.  In this state-passing model
an error outcome produces no successor state, so `initial_state_dict`,
`final_state_dict` and `result` are necessarily left unchanged. -/
theorem active_after_completion_guards (t : ActiveTransaction) (r : Obj)
    (h : t.result = some r) (ks : StateDict) (store : List (String × Value))
    (reason : Value) :
    t.initial_state ks =
      .error (.logicError "A transaction cannot be altered after it is completed") ∧
    t.final_state ks =
      .error (.logicError "A transaction cannot be altered after it is completed") ∧
    t.success store =
      .error (.logicError "A transaction cannot be completed multiple times.") ∧
    t.failure reason store =
      .error (.logicError "A transaction cannot be completed multiple times.") := by
  simp [ActiveTransaction.initial_state, ActiveTransaction.final_state,
    ActiveTransaction.success, ActiveTransaction.failure, h]

/-- Witness for C3 at a concrete completed transaction. -/
theorem active_after_completion_guards_witness :
    (⟨some [("a", .pInt 1)], some [("a", .pInt 1)], some []⟩ : ActiveTransaction).initial_state
        [("b", .pInt 2)] =
      .error (.logicError "A transaction cannot be altered after it is completed") :=
  (active_after_completion_guards _ [] rfl [("b", .pInt 2)] [] (.prim .pNone)).1

/-- C6: the first entry of a `Transaction` returns a fresh
`ActiveTransaction` with no initial state, no final state and no
result; entering a `Transaction` whose scope was already entered raises
a `LogicError`. -/
theorem transaction_enter_once (ctx : Context) (n : String) :
    Transaction.enter ⟨ctx, n, none⟩ =
      .ok (⟨ctx, n, some ActiveTransaction.init⟩, ActiveTransaction.init) ∧
    ActiveTransaction.init.initial_state_dict = none ∧
    ActiveTransaction.init.final_state_dict = none ∧
    ActiveTransaction.init.result = none ∧
    ∀ a : ActiveTransaction,
      Transaction.enter ⟨ctx, n, some a⟩ =
        .error (.logicError "A transaction may only be started once.") :=
  ⟨rfl, rfl, rfl, rfl, fun _ => rfl⟩

/-- C8: the code drops the extra keyword values passed to `unchanged`:
`unchanged(foo=1)` after `initial_state(a=1)` completes via
`self.success()` with an empty store, so the result object has no
attribute `foo` — the extras are not merged into the result. -/
theorem unchanged_drops_extra_kwargs :
    (⟨some c8d, none, none⟩ : ActiveTransaction).unchanged [("foo", .prim (.pInt 1))] =
      .ok (⟨some c8d, some c8d, some c8r⟩, c8r) ∧
    getattr c8r "foo" = none := by
  exact ⟨rfl, rfl⟩

/-- C9: an extra keyword named after a derived attribute (`changed`,
`success`, `failure_reason`, `initial_state` or `final_state`) passed
to `success` or to `failure` replaces that attribute on the resulting
`CompletedTransaction`, because the store is applied by `setattr` after
the derived attributes are computed. -/
theorem completed_store_overrides_derived (t : ActiveTransaction) (h : t.result = none)
    (k : String)
    (_hk : k = "changed" ∨ k = "success" ∨ k = "failure_reason" ∨
      k = "initial_state" ∨ k = "final_state") (v : Value) (reason : Value) :
    (∃ t1 r, t.success [(k, v)] = .ok (t1, r) ∧ getattr r k = some v) ∧
    (∃ t1 r, t.failure reason [(k, v)] = .ok (t1, r) ∧ getattr r k = some v) := by
  obtain ⟨i0, f0, r0⟩ := t
  simp only at h
  subst h
  constructor
  · refine ⟨_, _, rfl, ?_⟩
    simp only [CompletedTransaction.make, List.foldl_cons, List.foldl_nil]
    exact getattr_setattr_self _ _ _
  · refine ⟨_, _, rfl, ?_⟩
    simp only [CompletedTransaction.make, List.foldl_cons, List.foldl_nil]
    exact getattr_setattr_self _ _ _

/-- Witness for C9: after recording two differing state maps, both
`success(changed=False)` and `failure("why", changed=False)` yield a
result whose `changed` attribute is `False`. -/
theorem completed_store_overrides_derived_witness :
    (∃ t1 r,
      (⟨some [("a", .pInt 1)], some [("a", .pInt 2)], none⟩ : ActiveTransaction).success
          [("changed", .prim (.pBool false))] = .ok (t1, r) ∧
      getattr r "changed" = some (.prim (.pBool false))) ∧
    (∃ t1 r,
      (⟨some [("a", .pInt 1)], some [("a", .pInt 2)], none⟩ : ActiveTransaction).failure
          (.prim (.pStr "why")) [("changed", .prim (.pBool false))] = .ok (t1, r) ∧
      getattr r "changed" = some (.prim (.pBool false))) :=
  completed_store_overrides_derived _ rfl "changed" (Or.inl rfl) _ (.prim (.pStr "why"))

/-- C2 counterexample: a `CompletedTransaction` built by
`success(changed=True)` over two identical recorded snapshots has
`changed == True` even though `initial_state` and `final_state` are the
same map — the extra keyword overrides the derived attribute, so the
claimed equivalence fails for results built with arbitrary extras. -/
theorem completed_changed_override_cex :
    c2t.success [("changed", .prim (.pBool true))] =
      .ok (⟨some c2d, some c2d, some c2r⟩, c2r) ∧
    getattr c2r "changed" = some (.prim (.pBool true)) ∧
    getattr c2r "initial_state" = some (.dict c2d) ∧
    getattr c2r "final_state" = some (.dict c2d) ∧
    pyEqV (.dict c2d) (.dict c2d) = true :=
  ⟨rfl, rfl, rfl, rfl, rfl⟩

/-- C2 (amended): for every `CompletedTransaction` whose extra keyword
values do not override `changed`, `initial_state` or `final_state`, the
`changed` attribute is `True` iff the `initial_state` map is
structurally unequal (full untruncated Python `==`) to the
`final_state` map. -/
theorem completed_changed_iff (t : ActiveTransaction) (s fr : Value)
    (ks : List (String × Value))
    (hks : ∀ kv ∈ ks, kv.1 ≠ "changed" ∧ kv.1 ≠ "initial_state" ∧ kv.1 ≠ "final_state") :
    getattr (CompletedTransaction.make t s ks fr) "initial_state" =
      some (optStateToValue t.initial_state_dict) ∧
    getattr (CompletedTransaction.make t s ks fr) "final_state" =
      some (optStateToValue t.final_state_dict) ∧
    (getattr (CompletedTransaction.make t s ks fr) "changed" =
        some (.prim (.pBool true)) ↔
      pyEqV (optStateToValue t.initial_state_dict)
        (optStateToValue t.final_state_dict) = false) := by
  refine ⟨make_getattr_initial_state t s fr ks fun kv hkv => ((hks kv hkv).2).1,
    make_getattr_final_state t s fr ks fun kv hkv => ((hks kv hkv).2).2, ?_⟩
  rw [make_getattr_changed t s fr ks fun kv hkv => (hks kv hkv).1]
  simp [Bool.not_eq_true']

/-- Witness for the amended C2: two differing one-field snapshots and a
non-overriding extra keyword yield `changed == True`. -/
theorem completed_changed_iff_witness :
    getattr (CompletedTransaction.make ⟨some [("a", .pInt 1)], some [("a", .pInt 2)], none⟩
        (.prim (.pBool true)) [("hash", .prim (.pStr "h"))] (.prim .pNone)) "changed" =
      some (.prim (.pBool true)) :=
  ((completed_changed_iff ⟨some [("a", .pInt 1)], some [("a", .pInt 2)], none⟩
      (.prim (.pBool true)) (.prim .pNone) [("hash", .prim (.pStr "h"))]
      (by decide)).2.2).mpr (by decide)

/-- C5: on an `ActiveTransaction` whose initial state is recorded and
whose result is not yet set, `unchanged()` sets the final state equal
to the recorded initial state and completes with a result whose
`success` attribute is `True` and whose `changed` attribute is
`False`. -/
theorem unchanged_yields_success_nochange (t : ActiveTransaction) (d : StateDict)
    (hi : t.initial_state_dict = some d) (hr : t.result = none)
    (hnd : (d.map Prod.fst).Nodup) :
    ∃ r, t.unchanged [] = .ok (⟨some d, some d, some r⟩, r) ∧
      getattr r "success" = some (.prim (.pBool true)) ∧
      getattr r "changed" = some (.prim (.pBool false)) ∧
      getattr r "final_state" = some (.dict d) := by
  obtain ⟨i0, f0, r0⟩ := t
  dsimp only at hi hr
  subst hi; subst hr
  refine ⟨_, rfl, ?_, ?_, ?_⟩
  · exact make_getattr_success ⟨some d, some d, none⟩ (.prim (.pBool true)) (.prim .pNone)
      [] (by simp)
  · rw [make_getattr_changed ⟨some d, some d, none⟩ (.prim (.pBool true)) (.prim .pNone)
      [] (by simp)]
    dsimp only [optStateToValue]
    simp [pyEqV, dictEq_refl hnd]
  · rw [make_getattr_final_state ⟨some d, some d, none⟩ (.prim (.pBool true)) (.prim .pNone)
      [] (by simp)]
    rfl

/-- Witness for C5 on the spec's Scenario A snapshot. -/
theorem unchanged_yields_success_nochange_witness :
    ∃ r, (⟨some [("mode", .pStr "644")], none, none⟩ : ActiveTransaction).unchanged [] =
        .ok (⟨some [("mode", .pStr "644")], some [("mode", .pStr "644")], some r⟩, r) ∧
      getattr r "success" = some (.prim (.pBool true)) ∧
      getattr r "changed" = some (.prim (.pBool false)) ∧
      getattr r "final_state" = some (.dict [("mode", .pStr "644")]) :=
  unchanged_yields_success_nochange _ _ rfl rfl (by decide)

/-- C4: on an `ActiveTransaction` that passes `finalize`'s invariant
checks (a result whose `initial_state` and `final_state` attributes are
state dicts with equal key sets), `finalize` renders exactly one report
line, returns normally iff the result's `success` flag is truthy, and
raises a `TransactionError` carrying the result object when it is
falsy. -/
theorem finalize_report_and_raise (t : ActiveTransaction) (r : Obj)
    (di df : StateDict) (sv cv : Value) (c : Context) (tr : Transaction)
    (hr : t.result = some r)
    (hi : getattr r "initial_state" = some (.dict di))
    (hf : getattr r "final_state" = some (.dict df))
    (hk : keySetEq di df = true)
    (hs : getattr r "success" = some sv)
    (hc : getattr r "changed" = some cv) :
    (t.finalize c tr).1.length = 1 ∧
    ((t.finalize c tr).2 = .ok () ↔ pyTruthy sv = true) ∧
    (pyTruthy sv = false → (t.finalize c tr).2 = .error (.transactionError r)) := by
  obtain ⟨i0, f0, r0⟩ := t
  dsimp only at hr
  subst hr
  obtain ⟨ps, hps⟩ := renderPairs_isOk di df (keySetEq_right_sub hk)
  cases hsv : pyTruthy sv with
  | true => simp [ActiveTransaction.finalize, hi, hf, hk, hs, hc, hps, hsv]
  | false => simp [ActiveTransaction.finalize, hi, hf, hk, hs, hc, hps, hsv]

/-- Witness for C4: a failed transaction with matching key sets prints
one line and raises `TransactionError` carrying the result. -/
theorem finalize_report_and_raise_witness :
    ((⟨some [("x", .pStr "a")], some [("x", .pStr "b")], some c4r⟩ :
        ActiveTransaction).finalize () ⟨(), "file", none⟩).1.length = 1 ∧
    ((⟨some [("x", .pStr "a")], some [("x", .pStr "b")], some c4r⟩ :
        ActiveTransaction).finalize () ⟨(), "file", none⟩).2 =
      .error (.transactionError c4r) := by
  have h := finalize_report_and_raise
    ⟨some [("x", .pStr "a")], some [("x", .pStr "b")], some c4r⟩ c4r
    [("x", .pStr "a")] [("x", .pStr "b")] (.prim (.pBool false)) (.prim (.pBool true))
    () ⟨(), "file", none⟩ rfl rfl rfl (by decide) rfl rfl
  exact ⟨h.1, h.2.2 (by decide)⟩

/-- C7: for a single-field transaction whose two recorded string values
both exceed 16 characters and differ, the derived `changed` attribute
is `True` (full-value comparison), and the report line shows the
`before → after` diff with each value truncated to its first 16
characters plus an ellipsis. -/
theorem report_truncates_display_compares_full (s1 s2 : String) (c : Context)
    (tr : Transaction) (h1 : 16 < s1.length) (h2 : 16 < s2.length) (hne : s1 ≠ s2) :
    ∃ r, ActiveTransaction.success
        ⟨some [("v", .pStr s1)], some [("v", .pStr s2)], none⟩ [] =
        .ok (⟨some [("v", .pStr s1)], some [("v", .pStr s2)], some r⟩, r) ∧
      getattr r "changed" = some (.prim (.pBool true)) ∧
      ActiveTransaction.finalize
          ⟨some [("v", .pStr s1)], some [("v", .pStr s2)], some r⟩ c tr =
        (["[" ++ statusChanged ++ "] " ++ tr.name ++
            ("  \x1b[33m" ++ "v" ++ ": " ++ (s1.take 16 ++ "…") ++ " → " ++
              (s2.take 16 ++ "…") ++ "\x1b[m")], .ok ()) := by
  have hprim : primEq (.pStr s1) (.pStr s2) = false := by
    simp [primEq, hne]
  have hchg : pyEqV (.dict [("v", .pStr s1)]) (.dict [("v", .pStr s2)]) = false := by
    simp [pyEqV, dictEq, lookup, hprim]
  have htr1 : truncateDisplay s1 = s1.take 16 ++ "…" := by
    simp [truncateDisplay, h1]
  have htr2 : truncateDisplay s2 = s2.take 16 ++ "…" := by
    simp [truncateDisplay, h2]
  refine ⟨CompletedTransaction.make
      ⟨some [("v", .pStr s1)], some [("v", .pStr s2)], none⟩
      (.prim (.pBool true)) [] (.prim .pNone), rfl, ?_, ?_⟩
  · rw [make_getattr_changed ⟨some [("v", .pStr s1)], some [("v", .pStr s2)], none⟩
      (.prim (.pBool true)) (.prim .pNone) [] (by simp)]
    simp only [optStateToValue, hchg, Bool.not_false]
  · have hgi := make_getattr_initial_state
      ⟨some [("v", .pStr s1)], some [("v", .pStr s2)], none⟩
      (.prim (.pBool true)) (.prim .pNone) [] (by simp)
    have hgf := make_getattr_final_state
      ⟨some [("v", .pStr s1)], some [("v", .pStr s2)], none⟩
      (.prim (.pBool true)) (.prim .pNone) [] (by simp)
    have hgs := make_getattr_success
      ⟨some [("v", .pStr s1)], some [("v", .pStr s2)], none⟩
      (.prim (.pBool true)) (.prim .pNone) [] (by simp)
    have hgc := make_getattr_changed
      ⟨some [("v", .pStr s1)], some [("v", .pStr s2)], none⟩
      (.prim (.pBool true)) (.prim .pNone) [] (by simp)
    simp [ActiveTransaction.finalize, hgi, hgf, hgs, hgc, optStateToValue,
      keySetEq, containsKey, lookup, renderPairs, renderPair, pyStr, hprim,
      htr1, htr2, hchg, pyTruthy, string_append_empty]

/-- Witness for C7: two differing 30-character values sharing their
first 16 characters, so the two truncated displays even coincide while
the diff branch and `changed == True` are chosen from the full
values. -/
theorem report_truncates_display_compares_full_witness :
    ∃ r, ActiveTransaction.success
        ⟨some [("v", .pStr "aaaaaaaaaaaaaaaaaaaaaaaaaaaaaa")],
         some [("v", .pStr "aaaaaaaaaaaaaaaaaaaaaaaaaaaaab")], none⟩ [] =
        .ok (⟨some [("v", .pStr "aaaaaaaaaaaaaaaaaaaaaaaaaaaaaa")],
          some [("v", .pStr "aaaaaaaaaaaaaaaaaaaaaaaaaaaaab")], some r⟩, r) ∧
      getattr r "changed" = some (.prim (.pBool true)) ∧
      ActiveTransaction.finalize
          ⟨some [("v", .pStr "aaaaaaaaaaaaaaaaaaaaaaaaaaaaaa")],
           some [("v", .pStr "aaaaaaaaaaaaaaaaaaaaaaaaaaaaab")], some r⟩ ()
          ⟨(), "t", none⟩ =
        (["[" ++ statusChanged ++ "] " ++ (⟨(), "t", none⟩ : Transaction).name ++
            ("  \x1b[33m" ++ "v" ++ ": " ++
              ("aaaaaaaaaaaaaaaaaaaaaaaaaaaaaa".take 16 ++ "…") ++ " → " ++
              ("aaaaaaaaaaaaaaaaaaaaaaaaaaaaab".take 16 ++ "…") ++ "\x1b[m")],
          .ok ()) :=
  report_truncates_display_compares_full "aaaaaaaaaaaaaaaaaaaaaaaaaaaaaa"
    "aaaaaaaaaaaaaaaaaaaaaaaaaaaaab" () ⟨(), "t", none⟩
    (by decide) (by decide) (by decide)

/-- C10: calling `unchanged` on an `ActiveTransaction` whose initial
state was never recorded raises a `TypeError` (from unpacking
`**None`), not the protocol's `LogicError`. -/
theorem unchanged_without_initial_typeerror (t : ActiveTransaction)
    (h : t.initial_state_dict = none) (ks : List (String × Value)) :
    t.unchanged ks =
      .error (.typeError "argument after ** must be a mapping, not NoneType") ∧
    ∀ m, t.unchanged ks ≠ .error (.logicError m) := by
  constructor
  · simp [ActiveTransaction.unchanged, h]
  · intro m
    simp [ActiveTransaction.unchanged, h]

/-- Witness for C10 on a fresh `ActiveTransaction`. -/
theorem unchanged_without_initial_typeerror_witness :
    ActiveTransaction.init.unchanged [] =
      .error (.typeError "argument after ** must be a mapping, not NoneType") :=
  (unchanged_without_initial_typeerror ActiveTransaction.init rfl []).1

end SimpleAutomation
